import Mathlib

/-!
# Verification of the stac-static query model

Shallow embedding of `stac_static/search.py`: the parameter normalizer
(`ItemSearch._format_*`), the evaluation engine (`_search`), and the
memoizing accessors (`ItemSearch.result`, `matched`, `items`,
`parameters`).

Conventions of the embedding:
* Python `None` is `Option.none`; a value that may be absent is an `Option`.
* Python exceptions are `Except String` errors carrying the message.
* Timestamps (`pd.Timestamp` at UTC) are records of calendar fields with
  nanosecond precision; `pd.Period` for date-only strings of year, month or
  day precision is modelled by `PeriodP` with its `start_time` / `end_time`.
* Geometries are modelled as axis-aligned rational rectangles; the geometry
  library is an external collaborator whose only contract is the symmetric
  intersection test, which rectangles realize exactly.
* The attribute-expression evaluator (`pygeofilter`'s `to_filter`) is an
  external collaborator: it is passed as a row-predicate parameter `φ`.
-/

/-- A UTC instant with nanosecond precision (models `pd.Timestamp` with
`tz="utc"`). -/
structure Ts where
  year : Nat
  month : Nat
  day : Nat
  hour : Nat
  minute : Nat
  second : Nat
  ns : Nat
deriving DecidableEq, Repr

/-- Chronological order on UTC instants: lexicographic on the calendar
fields (models `pd.Timestamp` comparison). -/
def tsLe (a b : Ts) : Bool :=
  if a.year ≠ b.year then a.year < b.year
  else if a.month ≠ b.month then a.month < b.month
  else if a.day ≠ b.day then a.day < b.day
  else if a.hour ≠ b.hour then a.hour < b.hour
  else if a.minute ≠ b.minute then a.minute < b.minute
  else if a.second ≠ b.second then a.second < b.second
  else a.ns ≤ b.ns

/-- Gregorian leap year. -/
def isLeap (y : Nat) : Bool :=
  (y % 4 == 0 && y % 100 != 0) || y % 400 == 0

/-- Days in a Gregorian month. -/
def daysInMonth (y m : Nat) : Nat :=
  if m == 2 then (if isLeap y then 29 else 28)
  else if m == 4 || m == 6 || m == 9 || m == 11 then 30
  else 31

/-- A calendar period: year, year-month, or full-date precision (models a
`pd.Period` built from a date-only string). -/
inductive PeriodP where
  | year (y : Nat)
  | month (y m : Nat)
  | day (y m d : Nat)
deriving DecidableEq, Repr

/-- `Period.start_time.tz_localize("utc")`: the first UTC instant of the
period. -/
def periodStart : PeriodP → Ts
  | .year y => ⟨y, 1, 1, 0, 0, 0, 0⟩
  | .month y m => ⟨y, m, 1, 0, 0, 0, 0⟩
  | .day y m d => ⟨y, m, d, 0, 0, 0, 0⟩

/-- `Period.end_time.tz_localize("utc")`: the last UTC instant of the
period (start of the next period minus one nanosecond). -/
def periodEnd : PeriodP → Ts
  | .year y => ⟨y, 12, 31, 23, 59, 59, 999999999⟩
  | .month y m => ⟨y, m, daysInMonth y m, 23, 59, 59, 999999999⟩
  | .day y m d => ⟨y, m, d, 23, 59, 59, 999999999⟩

/-- Split a character list on a separator character; mirrors Python
`str.split(sep)` for a one-character separator (an empty input yields a
single empty piece). -/
def splitCharAux (sep : Char) : List Char → List Char → List String
  | [], acc => [String.mk acc.reverse]
  | c :: cs, acc =>
    if c = sep then String.mk acc.reverse :: splitCharAux sep cs []
    else splitCharAux sep cs (c :: acc)

/-- Python `s.split(sep)` for a one-character separator. -/
def splitOnChar (sep : Char) (s : String) : List String :=
  splitCharAux sep s.data []

/-- A nonempty all-digit string. -/
def allDigits (s : String) : Bool :=
  s.data ≠ [] && s.data.all (fun c => c.isDigit)

/-- Numeric value of an all-digit string. -/
def digitsToNat (s : String) : Nat :=
  s.data.foldl (fun a c => a * 10 + (c.toNat - 48)) 0

/-- The character `-`. -/
def dashChar : Char := Char.ofNat 45

/-- The character `/`. -/
def slashChar : Char := Char.ofNat 47

/-- The character `,`. -/
def commaChar : Char := Char.ofNat 44

/-- Modelled pandas `pd.Period(string)` construction for date-only strings:
`"YYYY"`, `"YYYY-MM"`, `"YYYY-MM-DD"` (the grammar the period-expansion rule
is specified over). Out-of-range months or days, or any other shape, fail
(pandas raises). -/
def parsePeriod (s : String) : Option PeriodP :=
  match splitOnChar dashChar s with
  | [ys] =>
    if allDigits ys then some (.year (digitsToNat ys)) else none
  | [ys, ms] =>
    if allDigits ys && allDigits ms then
      let m := digitsToNat ms
      if 1 ≤ m && m ≤ 12 then some (.month (digitsToNat ys) m) else none
    else none
  | [ys, ms, ds] =>
    if allDigits ys && allDigits ms && allDigits ds then
      let y := digitsToNat ys
      let m := digitsToNat ms
      let d := digitsToNat ds
      if 1 ≤ m && m ≤ 12 && 1 ≤ d && d ≤ daysInMonth y m then
        some (.day y m d)
      else none
    else none
  | _ => none

/-- The raw `datetime` argument of `ItemSearch.__init__` when it is not
`None`: a string (split on `"/"`), or a list/tuple/iterator whose entries
may be `None`. -/
inductive DatetimeLike where
  | str (s : String)
  | seq (xs : List (Option String))
deriving DecidableEq, Repr

/-- The component list before `None`-filtering: `value.split("/")` for a
string, `list(value)` otherwise. -/
def dtRawComponents : DatetimeLike → List (Option String)
  | .str s => (splitOnChar slashChar s).map some
  | .seq xs => xs

/-- `[c for c in components if c is not None]`. -/
def dtComponents (v : DatetimeLike) : List String :=
  (dtRawComponents v).filterMap id

/-- Python `str()` of one component as it appears inside `str()` of a list
(`repr`: `None`, or the string in single quotes). -/
def pyReprComponent : Option String → String
  | none => "None"
  | some c => "\x27" ++ c ++ "\x27"

/-- Python `f"{value}"` for the raw datetime argument. -/
def renderDatetimeLike : DatetimeLike → String
  | .str s => s
  | .seq xs => "[" ++ String.intercalate ", " (xs.map pyReprComponent) ++ "]"

/-- The message of the exception raised for three or more datetime
components. -/
def tooManyMsg (n : Nat) (v : DatetimeLike) : String :=
  "too many datetime components (max=2, actual=" ++ toString n ++ "): "
    ++ renderDatetimeLike v

/-- `ItemSearch._format_datetime`. `.ok none` is Python `None` (no
constraint); `.ok (some (s, e))` is the pair of optional bounds; `.error`
is a raised exception (an unparseable period component, or too many
components). -/
def formatDatetime (value : Option DatetimeLike) :
    Except String (Option (Option Ts × Option Ts)) :=
  match value with
  | none => .ok none
  | some v =>
    match dtComponents v with
    | [] => .ok none
    | [c] =>
      match parsePeriod c with
      | some p => .ok (some (some (periodStart p), some (periodEnd p)))
      | none => .error ("could not parse period: " ++ c)
    | [c1, c2] =>
      let start? : Except String (Option Ts) :=
        if c1 == ".." then .ok none
        else match parsePeriod c1 with
          | some p => .ok (some (periodStart p))
          | none => .error ("could not parse period: " ++ c1)
      let end? : Except String (Option Ts) :=
        if c2 == ".." then .ok none
        else match parsePeriod c2 with
          | some p => .ok (some (periodEnd p))
          | none => .error ("could not parse period: " ++ c2)
      match start?, end? with
      | .ok s, .ok e => .ok (some (s, e))
      | .error m, _ => .error m
      | _, .error m => .error m
    | _ => .error (tooManyMsg (dtComponents v).length v)

/-- The raw `ids` / `collections` argument when it is not `None`: a
comma-separated string or a list/tuple/iterator of strings. -/
inductive ListLike where
  | str (s : String)
  | seq (xs : List String)
deriving DecidableEq, Repr

/-- `ItemSearch._format_listlike`. -/
def formatListlike : Option ListLike → Option (List String)
  | none => none
  | some (.str s) => some (splitOnChar commaChar s)
  | some (.seq xs) => some xs

/-- The raw `filter` argument when it is not `None`: a string expression, a
mapping (JSON-like), or any other Python object. -/
inductive FilterVal where
  | fstr (s : String)
  | fdict (s : String)
  | fother
deriving DecidableEq, Repr

/-- `ItemSearch._format_filter_lang`. -/
def formatFilterLang (filterArg : Option FilterVal) (value : Option String) :
    Option String :=
  match filterArg with
  | none => none
  | some f =>
    match value with
    | some v => some v
    | none =>
      match f with
      | .fstr _ => some "cql2-text"
      | .fdict _ => some "cql2-json"
      | .fother => none

/-- An axis-aligned rectangle with rational coordinates; the geometry type
of the embedding. -/
structure Rect where
  minx : ℚ
  miny : ℚ
  maxx : ℚ
  maxy : ℚ
deriving DecidableEq, Repr

/-- The external geometry collaborator's contract: symmetric spatial
intersection of two geometries (exact for axis-aligned rectangles). -/
def rectIntersects (a b : Rect) : Bool :=
  a.minx ≤ b.maxx && b.minx ≤ a.maxx && a.miny ≤ b.maxy && b.miny ≤ a.maxy

/-- The raw `intersects` argument when it is not `None`: a dict, a
JSON-encoded string, an object with `__geo_interface__` (each carrying the
geometry it denotes; JSON decoding is external), or any other object. -/
inductive IntersectsLike where
  | dict (g : Rect)
  | jsonStr (g : Rect)
  | geoIface (g : Rect)
  | other
deriving DecidableEq, Repr

/-- `ItemSearch._format_intersects`: dict and `__geo_interface__` inputs are
deep-copied (pure values here), strings are JSON-decoded; any other type
raises. -/
def formatIntersects : Option IntersectsLike → Except String (Option Rect)
  | none => .ok none
  | some (.dict g) => .ok (some g)
  | some (.jsonStr g) => .ok (some g)
  | some (.geoIface g) => .ok (some g)
  | some .other =>
    .error ("intersects must be of type None, str, dict, or an object that "
      ++ "implements __geo_interface__")

/-- Python `float(string)` for plain decimal literals (optional sign,
digits, optional fractional part); anything else raises `ValueError`.
Exotic accepted forms (exponents, `inf`, surrounding whitespace) are outside
the modelled grammar. -/
def parsePyFloat (s : String) : Option ℚ :=
  let core : String → Option ℚ := fun t =>
    match splitOnChar (Char.ofNat 46) t with
    | [a] => if allDigits a then some (digitsToNat a : ℚ) else none
    | [a, b] =>
      if allDigits a && allDigits b then
        some ((digitsToNat a : ℚ) + (digitsToNat b : ℚ) / ((10 : ℚ) ^ b.length))
      else none
    | _ => none
  match s.data with
  | c :: rest =>
    if c = dashChar then (core (String.mk rest)).map (fun q => -q)
    else core s
  | [] => none

/-- The raw `bbox` argument when it is not `None`: a comma-separated string
or a list/tuple/iterator of numerics. -/
inductive BBoxLike where
  | str (s : String)
  | lst (xs : List ℚ)
deriving DecidableEq, Repr

/-- `map(float, pieces)` materialized by `tuple(...)`: all pieces convert,
or the first bad piece raises `ValueError`. -/
def mapFloat : List String → Option (List ℚ)
  | [] => some []
  | s :: rest =>
    match parsePyFloat s, mapFloat rest with
    | some q, some qs => some (q :: qs)
    | _, _ => none

/-- `ItemSearch._format_bbox`: `tuple(map(float, ...))` — a string is split
on `,` and each piece converted by `float` (raising on a bad piece); a
sequence of numerics is converted elementwise. No count validation. -/
def formatBbox : Option BBoxLike → Except String (Option (List ℚ))
  | none => .ok none
  | some (.str s) =>
    match mapFloat (splitOnChar commaChar s) with
    | some qs => .ok (some qs)
    | none => .error "ValueError: could not convert string to float"
  | some (.lst xs) => .ok (some xs)

/-- The raw keyword arguments of `ItemSearch.__init__` (the catalog aside).
-/
structure RawParams where
  ids : Option ListLike
  collections : Option ListLike
  bbox : Option BBoxLike
  intersects : Option IntersectsLike
  datetime : Option DatetimeLike
  filterArg : Option FilterVal
  filterLangArg : Option String
deriving DecidableEq, Repr

/-- The canonical parameter map `self._parameters`: a field is `some` when
the key is present in the dict (the comprehension keeps exactly the
non-`None` values). -/
structure Params where
  bbox : Option (List ℚ)
  datetime : Option (Option Ts × Option Ts)
  ids : Option (List String)
  collections : Option (List String)
  intersects : Option Rect
  filterVal : Option FilterVal
  filterLang : Option String
deriving DecidableEq, Repr

/-- The body of `ItemSearch.__init__` after the catalog dispatch: build the
`params` dict (each `_format_*` may raise, in the dict-literal evaluation
order `bbox`, `datetime`, `ids`, `collections`, `intersects`, `filter`,
`filter-lang`), then keep the non-`None` entries. -/
def mkParams (raw : RawParams) : Except String Params :=
  match formatBbox raw.bbox with
  | .error e => .error e
  | .ok bbox =>
    match formatDatetime raw.datetime with
    | .error e => .error e
    | .ok datetime =>
      match formatIntersects raw.intersects with
      | .error e => .error e
      | .ok intersects =>
        .ok ⟨bbox, datetime, formatListlike raw.ids,
          formatListlike raw.collections, intersects, raw.filterArg,
          formatFilterLang raw.filterArg raw.filterLangArg⟩

/-- One record of the record collection (one row of the item
GeoDataFrame): identifier, collection tag, geometry, representative
timestamp. Open attributes are seen only by the external expression
evaluator `φ`. -/
structure Rec where
  id : String
  collection : String
  geom : Rect
  datetime : Ts
deriving DecidableEq, Repr

/-- `shapely.geometry.box(*bbox)`: exactly 4 positional coordinates (plus
an optional 5th `ccw` flag, which does not change the covered region);
any other argument count raises `TypeError`. -/
def shapelyBox : List ℚ → Except String Rect
  | [a, b, c, d] => .ok ⟨a, b, c, d⟩
  | [a, b, c, d, _] => .ok ⟨a, b, c, d⟩
  | xs =>
    .error ("TypeError: box() takes from 4 to 5 positional arguments but "
      ++ toString xs.length ++ " were given")

/-- `getattr(Parsers, lang.replace("-", "_"))` succeeds exactly for the two
enum members `cql2_json` and `cql2_text`; any other name raises
`AttributeError`. -/
def resolveLang (l : String) : Bool :=
  (l.replace "-" "_") == "cql2_json" || (l.replace "-" "_") == "cql2_text"

/-- `_search(df, **params)`: the narrowing passes in their fixed order.
`φ` is the external expression-evaluation collaborator (`to_filter`
composed with the resolved parser): the per-record boolean mask for a
filter value. -/
def searchEval (φ : FilterVal → Rec → Bool) (df : List Rec) (p : Params) :
    Except String (List Rec) :=
  let s0 := df
  let s1 := match p.ids with
    | none => s0
    | some ids => s0.filter (fun r => ids.contains r.id)
  let s2 := match p.collections with
    | none => s1
    | some cs => s1.filter (fun r => cs.contains r.collection)
  let s3e : Except String (List Rec) := match p.bbox with
    | none => .ok s2
    | some bs =>
      match shapelyBox bs with
      | .ok rect => .ok (s2.filter (fun r => rectIntersects r.geom rect))
      | .error e => .error e
  match s3e with
  | .error e => .error e
  | .ok s3 =>
    let s4 := match p.intersects with
      | none => s3
      | some g => s3.filter (fun r => rectIntersects r.geom g)
    let s5e : Except String (List Rec) := match p.filterVal with
      | none => .ok s4
      | some f =>
        match p.filterLang with
        | none => .error "KeyError: filter-lang"
        | some l =>
          if resolveLang l then .ok (s4.filter (φ f))
          else .error ("AttributeError: " ++ l)
    match s5e with
    | .error e => .error e
    | .ok s5 =>
      let s6 := match p.datetime with
        | none => s5
        | some (start?, end?) =>
          let t1 := match start? with
            | none => s5
            | some a => s5.filter (fun r => tsLe a r.datetime)
          match end? with
          | none => t1
          | some b => t1.filter (fun r => tsLe r.datetime b)
      .ok s6

/-- The observable state of an `ItemSearch` object: the stored record
collection `df`, the canonical parameters, the `cached_property` slot for
`result`, and an instrumentation counter of evaluation passes (the
side-effecting counter of the idempotence property). -/
structure QState where
  df : List Rec
  params : Params
  cache : Option (List Rec)
  evalCount : Nat
deriving DecidableEq, Repr

/-- Reading `self.result`: return the cached match set if the
`cached_property` slot is filled, else run `_search` once, fill the slot on
success and bump the evaluation counter (a raised exception is not
cached). -/
def resultAccess (φ : FilterVal → Rec → Bool) (s : QState) :
    Except String (List Rec) × QState :=
  match s.cache with
  | some r => (.ok r, s)
  | none =>
    match searchEval φ s.df s.params with
    | .ok r => (.ok r, { s with cache := some r, evalCount := s.evalCount + 1 })
    | .error e => (.error e, { s with evalCount := s.evalCount + 1 })

/-- `ItemSearch.matched()`: `len(self.result)`. -/
def matchedAccess (φ : FilterVal → Rec → Bool) (s : QState) :
    Except String Nat × QState :=
  match resultAccess φ s with
  | (.ok r, s1) => (.ok r.length, s1)
  | (.error e, s1) => (.error e, s1)

/-- `ItemSearch.items()` (through `item_collection`): the match set as a
sequence of items, reconstructed from `self.result`. -/
def itemsAccess (φ : FilterVal → Rec → Bool) (s : QState) :
    Except String (List Rec) × QState :=
  resultAccess φ s

/-- `n` successive reads of `self.result` on one query object, collecting
the outcome of each read. -/
def accessTimes (φ : FilterVal → Rec → Bool) :
    Nat → QState → List (Except String (List Rec)) × QState
  | 0, s => ([], s)
  | n + 1, s =>
    let (o, s1) := resultAccess φ s
    let (os, s2) := accessTimes φ n s1
    (o :: os, s2)

/-- A fresh query object: empty cache, counter at zero. -/
def freshQ (df : List Rec) (p : Params) : QState :=
  ⟨df, p, none, 0⟩

/-- A heap of dict objects (for reasoning about aliasing between the dict
returned by the `parameters` property and the stored `_parameters`): cells
addressed by index. -/
structure DictHeap where
  cells : List Params
deriving DecidableEq, Repr

/-- Read the dict at an address. -/
def DictHeap.readAt (h : DictHeap) (a : Nat) : Option Params :=
  h.cells[a]?

/-- In-place mutation of the dict at an address (adding, removing or
replacing keys: any new contents). -/
def DictHeap.writeAt (h : DictHeap) (a : Nat) (v : Params) : DictHeap :=
  ⟨h.cells.set a v⟩

/-- Allocate a new dict object; returns the heap and the fresh address. -/
def DictHeap.alloc (h : DictHeap) (v : Params) : DictHeap × Nat :=
  (⟨h.cells ++ [v]⟩, h.cells.length)

/-- The `ItemSearch.parameters` property: `self._parameters.copy()` — a
fresh dict with the same contents as the one stored at `paramsAddr`.
Returns the new heap and the address of the copy. -/
def parametersProperty (h : DictHeap) (paramsAddr : Nat) : DictHeap × Nat :=
  match h.readAt paramsAddr with
  | some m => h.alloc m
  | none => h.alloc ⟨none, none, none, none, none, none, none⟩

/-- `self.result` computed from the stored parameters dict on the heap. -/
def resultViaHeap (φ : FilterVal → Rec → Bool) (df : List Rec)
    (h : DictHeap) (paramsAddr : Nat) : Option (Except String (List Rec)) :=
  (h.readAt paramsAddr).map (fun p => searchEval φ df p)

/-- The conjunction of all active narrowing predicates of `_search`, as a
single per-record boolean (a failing pass contributes `true`; it never gets
that far since `searchEval` errors instead). -/
def passPred (φ : FilterVal → Rec → Bool) (p : Params) (r : Rec) : Bool :=
  (match p.ids with
    | none => true
    | some ids => ids.contains r.id) &&
  (match p.collections with
    | none => true
    | some cs => cs.contains r.collection) &&
  (match p.bbox with
    | none => true
    | some bs =>
      match shapelyBox bs with
      | .ok rect => rectIntersects r.geom rect
      | .error _ => true) &&
  (match p.intersects with
    | none => true
    | some g => rectIntersects r.geom g) &&
  (match p.filterVal with
    | none => true
    | some f => φ f r) &&
  (match p.datetime with
    | none => true
    | some (start?, end?) =>
      (match start? with
        | none => true
        | some a => tsLe a r.datetime) &&
      (match end? with
        | none => true
        | some b => tsLe r.datetime b))

set_option linter.unusedTactic false in
/-- Helper: a successful run of `_search` equals one single-pass filter of
the whole record collection by the conjunction of the active predicates. -/
theorem searchEval_ok_eq_filter (φ : FilterVal → Rec → Bool) (df : List Rec)
    (p : Params) (res : List Rec) (h : searchEval φ df p = .ok res) :
    res = df.filter (passPred φ p) := by
  obtain ⟨bb, dt, ids, cols, ig, fv, fl⟩ := p
  rcases bb with _ | bs <;>
  rcases dt with _ | ⟨_ | a, _ | b⟩ <;>
  rcases ids with _ | ids <;>
  rcases cols with _ | cols <;>
  rcases ig with _ | g <;>
  rcases fv with _ | f <;>
  rcases fl with _ | l <;>
  simp only [searchEval] at h
  all_goals try (rcases hsb : shapelyBox bs with m | rect <;> rw [hsb] at h)
  all_goals try (rcases hrl : resolveLang l with _ | _ <;> rw [hrl] at h)
  all_goals
    simp only [if_true, if_false, Bool.false_eq_true, List.filter_filter,
      Except.ok.injEq, reduceCtorEq] at h
  all_goals subst h
  all_goals
    first
      | (symm
         rw [List.filter_eq_self]
         intro r hr
         simp [passPred, hsb])
      | (symm
         rw [List.filter_eq_self]
         intro r hr
         simp [passPred])
      | (apply List.filter_congr
         intro r hr
         simp [passPred, hsb, hrl, Bool.and_comm, Bool.and_left_comm,
           Bool.and_assoc])
      | (apply List.filter_congr
         intro r hr
         simp [passPred, hsb, Bool.and_comm, Bool.and_left_comm,
           Bool.and_assoc])
      | (apply List.filter_congr
         intro r hr
         simp [passPred, hrl, Bool.and_comm, Bool.and_left_comm,
           Bool.and_assoc])
      | (apply List.filter_congr
         intro r hr
         simp [passPred, Bool.and_comm, Bool.and_left_comm, Bool.and_assoc])

/-- The open-range token is not a parseable period. -/
theorem parsePeriod_dotdot : parsePeriod ".." = none := by rfl

/-- A component that parses as a period is not the open-range token. -/
theorem parse_ne_dotdot {c : String} {p : PeriodP}
    (h : parsePeriod c = some p) : (c == "..") = false := by
  rcases hc : c == ".." with _ | _
  · rfl
  · exfalso
    rw [eq_of_beq hc, parsePeriod_dotdot] at h
    exact Option.noConfusion h

/-- C1. For every single-component datetime input, normalization expands it
as a calendar period into the pair (first UTC instant, last UTC instant);
in a two-component input each side independently becomes `None` when it is
`".."`, else the left side becomes the period's start instant and the right
side the period's end instant; `"2022"`, `"../2022-03"` and `"2022-03/.."`
normalize to the stated bounds. -/
theorem c1_datetime_period_expansion :
    (∀ c p, parsePeriod c = some p →
      formatDatetime (some (.seq [some c])) =
        .ok (some (some (periodStart p), some (periodEnd p)))) ∧
    (∀ c1 c2 p1 p2, parsePeriod c1 = some p1 → parsePeriod c2 = some p2 →
      formatDatetime (some (.seq [some c1, some c2])) =
        .ok (some (some (periodStart p1), some (periodEnd p2)))) ∧
    (∀ c2 p2, parsePeriod c2 = some p2 →
      formatDatetime (some (.seq [some "..", some c2])) =
        .ok (some (none, some (periodEnd p2)))) ∧
    (∀ c1 p1, parsePeriod c1 = some p1 →
      formatDatetime (some (.seq [some c1, some ".."])) =
        .ok (some (some (periodStart p1), none))) ∧
    (formatDatetime (some (.seq [some "..", some ".."])) =
      .ok (some (none, none))) ∧
    (formatDatetime (some (.str "2022")) =
      .ok (some (some ⟨2022, 1, 1, 0, 0, 0, 0⟩,
                 some ⟨2022, 12, 31, 23, 59, 59, 999999999⟩))) ∧
    (formatDatetime (some (.str "../2022-03")) =
      .ok (some (none, some ⟨2022, 3, 31, 23, 59, 59, 999999999⟩))) ∧
    (formatDatetime (some (.str "2022-03/..")) =
      .ok (some (some ⟨2022, 3, 1, 0, 0, 0, 0⟩, none))) := by
  refine ⟨?_, ?_, ?_, ?_, by rfl, by rfl, by rfl, by rfl⟩
  · intro c p h
    simp [formatDatetime, dtComponents, dtRawComponents, h]
  · intro c1 c2 p1 p2 h1 h2
    simp [formatDatetime, dtComponents, dtRawComponents,
      parse_ne_dotdot h1, parse_ne_dotdot h2, h1, h2]
  · intro c2 p2 h2
    simp [formatDatetime, dtComponents, dtRawComponents,
      parse_ne_dotdot h2, h2]
  · intro c1 p1 h1
    simp [formatDatetime, dtComponents, dtRawComponents,
      parse_ne_dotdot h1, h1]

/-- Witness for C1 at concrete inputs. -/
theorem c1_datetime_period_expansion_witness :
    formatDatetime (some (.seq [some "2022-03"])) =
      .ok (some (some ⟨2022, 3, 1, 0, 0, 0, 0⟩,
                 some ⟨2022, 3, 31, 23, 59, 59, 999999999⟩)) :=
  c1_datetime_period_expansion.1 "2022-03" (.month 2022 3) (by rfl)

/-- Helper: three or more non-`None` components make `_format_datetime`
raise with the message naming the actual count and the maximum of 2. -/
theorem formatDatetime_too_many {v : DatetimeLike}
    (h3 : 3 ≤ (dtComponents v).length) :
    formatDatetime (some v) = .error (tooManyMsg (dtComponents v).length v) := by
  rcases hcs : dtComponents v with _ | ⟨x, _ | ⟨y, _ | ⟨z, t⟩⟩⟩
  · rw [hcs] at h3; simp at h3
  · rw [hcs] at h3; simp at h3
  · rw [hcs] at h3; simp at h3
  · simp [formatDatetime, hcs]

/-- C6. A datetime input with three or more non-`None` components makes
query-object construction fail with an error naming the actual component
count and the maximum of 2; the failure happens in `__init__` itself (there
is no constructed object left to evaluate). -/
theorem c6_too_many_components_raises (raw : RawParams) (v : DatetimeLike)
    (bb : Option (List ℚ)) (hbb : formatBbox raw.bbox = .ok bb)
    (hdt : raw.datetime = some v) (h3 : 3 ≤ (dtComponents v).length) :
    mkParams raw = .error (tooManyMsg (dtComponents v).length v) := by
  simp [mkParams, hbb, hdt, formatDatetime_too_many h3]

/-- Witness for C6 at a concrete three-component input. -/
theorem c6_too_many_components_raises_witness :
    mkParams ⟨none, none, none, none,
        some (.seq [some "2020", some "2021", some "2022"]), none, none⟩ =
      .error (tooManyMsg 3 (.seq [some "2020", some "2021", some "2022"])) :=
  c6_too_many_components_raises _ (.seq [some "2020", some "2021", some "2022"])
    none (by rfl) (by rfl) (by decide)

/-- C7. `_format_filter_lang`: `None` filter gives `None`; an explicit
language tag is returned unchanged; otherwise a string filter infers
`cql2-text`, a mapping filter infers `cql2-json`, and any other filter type
gives `None` without raising. -/
theorem c7_filter_lang_inference :
    (∀ l, formatFilterLang none l = none) ∧
    (∀ f l, formatFilterLang (some f) (some l) = some l) ∧
    (∀ s, formatFilterLang (some (.fstr s)) none = some "cql2-text") ∧
    (∀ s, formatFilterLang (some (.fdict s)) none = some "cql2-json") ∧
    (formatFilterLang (some .fother) none = none) := by
  refine ⟨fun l => rfl, fun f l => rfl, fun s => rfl, fun s => rfl, rfl⟩

/-- C8. `_format_listlike`: `None` gives `None`; a string splits on `,`
with no whitespace trimming (so `""` gives `[""]` and spaces survive); a
sequence becomes a tuple preserving order and duplicates. -/
theorem c8_listlike_normalization :
    (formatListlike none = none) ∧
    (∀ s, formatListlike (some (.str s)) = some (splitOnChar commaChar s)) ∧
    (formatListlike (some (.str "")) = some [""]) ∧
    (formatListlike (some (.str "a, b")) = some ["a", " b"]) ∧
    (formatListlike (some (.str "a,,b")) = some ["a", "", "b"]) ∧
    (∀ xs, formatListlike (some (.seq xs)) = some xs) := by
  refine ⟨rfl, fun s => rfl, by rfl, by rfl, by rfl, fun xs => rfl⟩

/-- A filter value whose language is inferable: a string or a mapping. -/
def filterLangInferable : Option FilterVal → Bool
  | some (.fstr _) => true
  | some (.fdict _) => true
  | _ => false

/-- C2 counterexample. `datetime=[None, None]` is a non-`None` argument,
construction succeeds, yet the canonical map has no `datetime` key: the
claimed iff fails. -/
theorem c2_counterexample :
    (some (DatetimeLike.seq [none, none])).isSome = true ∧
    mkParams ⟨none, none, none, none, some (.seq [none, none]), none, none⟩ =
      .ok ⟨none, none, none, none, none, none, none⟩ := by
  exact ⟨rfl, rfl⟩

/-- Helper: a successful `_format_datetime` on a two-component input always
carries a (possibly half-open) pair, never `None`. -/
theorem formatDatetime_two_isSome {v : DatetimeLike} {c1 c2 : String}
    (hcs : dtComponents v = [c1, c2]) {dtv : Option (Option Ts × Option Ts)}
    (hdt : formatDatetime (some v) = .ok dtv) : dtv.isSome = true := by
  rcases hb1 : c1 == ".." with _ | _ <;> rcases hb2 : c2 == ".." with _ | _ <;>
    rcases hp1 : parsePeriod c1 with _ | p1 <;>
    rcases hp2 : parsePeriod c2 with _ | p2 <;>
    simp [formatDatetime, hcs, hb1, hb2, hp1, hp2] at hdt <;>
    simp [← hdt]

/-- C2 as amended. When construction succeeds, a key is present in the
canonical map iff its normalization is non-`None`: for `ids`,
`collections`, `bbox`, `intersects` and `filter` that is exactly when the
caller supplied a non-`None` argument, but the `datetime` key additionally
requires at least one non-`None` component, and the `filter-lang` key
requires a non-`None` filter together with an explicit tag or an inferable
(string or mapping) filter type. -/
theorem c2_key_presence (raw : RawParams) (p : Params)
    (h : mkParams raw = .ok p) :
    (p.ids.isSome ↔ raw.ids.isSome) ∧
    (p.collections.isSome ↔ raw.collections.isSome) ∧
    (p.bbox.isSome ↔ raw.bbox.isSome) ∧
    (p.intersects.isSome ↔ raw.intersects.isSome) ∧
    (p.filterVal.isSome ↔ raw.filterArg.isSome) ∧
    (p.datetime.isSome ↔ ∃ v, raw.datetime = some v ∧ dtComponents v ≠ []) ∧
    (p.filterLang.isSome ↔
      (raw.filterArg.isSome ∧
        (raw.filterLangArg.isSome ∨ filterLangInferable raw.filterArg = true))) := by
  unfold mkParams at h
  rcases hbb : formatBbox raw.bbox with e | bb <;> rw [hbb] at h
  · simp at h
  rcases hdt : formatDatetime raw.datetime with e | dtv <;> rw [hdt] at h
  · simp at h
  rcases hig : formatIntersects raw.intersects with e | ig <;> rw [hig] at h
  · simp at h
  simp only [Except.ok.injEq] at h
  subst h
  refine ⟨?_, ?_, ?_, ?_, Iff.rfl, ?_, ?_⟩
  · rcases raw.ids with _ | (s | xs) <;> simp [formatListlike]
  · rcases raw.collections with _ | (s | xs) <;> simp [formatListlike]
  · rcases hraw : raw.bbox with _ | (s | xs)
    · rw [hraw] at hbb
      simp [formatBbox] at hbb
      simp [← hbb]
    · rw [hraw] at hbb
      rcases hpm : mapFloat (splitOnChar commaChar s) with _ | qs <;>
        simp [formatBbox, hpm] at hbb
      simp [← hbb]
    · rw [hraw] at hbb
      simp [formatBbox] at hbb
      simp [← hbb]
  · rcases hraw : raw.intersects with _ | (g | g | g) <;> rw [hraw] at hig <;>
      simp [formatIntersects] at hig <;> simp [← hig]
  · rcases hraw : raw.datetime with _ | v
    · rw [hraw] at hdt
      simp [formatDatetime] at hdt
      simp [← hdt]
    · rw [hraw] at hdt
      rcases hcs : dtComponents v with _ | ⟨c, _ | ⟨c2, rest⟩⟩
      · simp [formatDatetime, hcs] at hdt
        simp [← hdt, hcs]
      · rcases hp : parsePeriod c with _ | pp <;>
          simp [formatDatetime, hcs, hp] at hdt
        simp [← hdt, hcs]
      · rcases rest with _ | ⟨c3, rest⟩
        · have := formatDatetime_two_isSome hcs hdt
          simp [this, hcs]
        · have h3 : 3 ≤ (dtComponents v).length := by rw [hcs]; simp
          rw [formatDatetime_too_many h3] at hdt
          simp at hdt
  · rcases raw.filterArg with _ | (s | s | _) <;>
      rcases raw.filterLangArg with _ | l <;>
      simp [formatFilterLang, filterLangInferable]

/-- Witness for C2 at a concrete input (an `ids` string and a two-sided
datetime range). -/
theorem c2_key_presence_witness :
    mkParams ⟨some (.str "a,b"), none, none, none,
        some (.str "2021/2022"), some (.fstr "id LIKE x"), none⟩ =
      .ok ⟨none, some (some ⟨2021, 1, 1, 0, 0, 0, 0⟩,
              some ⟨2022, 12, 31, 23, 59, 59, 999999999⟩),
            some ["a", "b"], none, none, some (.fstr "id LIKE x"),
            some "cql2-text"⟩ ∧
    ((some ["a", "b"] : Option (List String)).isSome ↔
      (some (ListLike.str "a,b")).isSome) := by
  constructor
  · rfl
  · exact (c2_key_presence
      ⟨some (.str "a,b"), none, none, none, some (.str "2021/2022"),
        some (.fstr "id LIKE x"), none⟩
      ⟨none, some (some ⟨2021, 1, 1, 0, 0, 0, 0⟩,
          some ⟨2022, 12, 31, 23, 59, 59, 999999999⟩),
        some ["a", "b"], none, none, some (.fstr "id LIKE x"),
        some "cql2-text"⟩ (by rfl)).1

/-- C3 (as the code behaves). Normalization accepts any number of numeric
components without validating the count; at evaluation time a 4-component
bbox filters by rectangle intersection, but a 6-component bbox reaches
`shapely.geometry.box(*bbox)` with six positional arguments and raises
`TypeError` instead of ignoring the z components. -/
theorem c3_bbox_six_components :
    (∀ xs : List ℚ, formatBbox (some (.lst xs)) = .ok (some xs)) ∧
    (∀ (φ : FilterVal → Rec → Bool) (df : List Rec),
      searchEval φ df ⟨some [0, 0, 0, 1, 1, 1], none, none, none, none,
          none, none⟩ =
        .error ("TypeError: box() takes from 4 to 5 positional arguments but "
          ++ "6 were given")) ∧
    (∀ (φ : FilterVal → Rec → Bool) (df : List Rec),
      searchEval φ df ⟨some [0, 0, 1, 1], none, none, none, none,
          none, none⟩ =
        .ok (df.filter (fun r => rectIntersects r.geom ⟨0, 0, 1, 1⟩))) := by
  refine ⟨fun xs => rfl, fun φ df => rfl, fun φ df => rfl⟩

/-- C4. Narrowing by `ids` and then by `collections` equals one conjunctive
single-pass filter, in either pass order; and in general any successful
evaluation equals a single-pass filter by the conjunction of all active
predicates, so the fixed pass order never changes the match set. -/
theorem c4_conjunctive_order_independence :
    (∀ (φ : FilterVal → Rec → Bool) (df : List Rec) (ids cols : List String),
      searchEval φ df ⟨none, none, some ids, some cols, none, none, none⟩ =
        .ok (df.filter (fun r =>
          ids.contains r.id && cols.contains r.collection))) ∧
    (∀ (df : List Rec) (ids cols : List String),
      (df.filter (fun r => ids.contains r.id)).filter
          (fun r => cols.contains r.collection) =
        (df.filter (fun r => cols.contains r.collection)).filter
          (fun r => ids.contains r.id)) ∧
    (∀ (φ : FilterVal → Rec → Bool) (df : List Rec) (p : Params)
        (res : List Rec),
      searchEval φ df p = .ok res → res = df.filter (passPred φ p)) := by
  refine ⟨?_, ?_, fun φ df p res h => searchEval_ok_eq_filter φ df p res h⟩
  · intro φ df ids cols
    have h : searchEval φ df ⟨none, none, some ids, some cols, none, none,
        none⟩ = .ok ((df.filter (fun r => ids.contains r.id)).filter
          (fun r => cols.contains r.collection)) := rfl
    rw [h, List.filter_filter]
    exact congrArg Except.ok (List.filter_congr (fun r hr => Bool.and_comm _ _))
  · intro df ids cols
    rw [List.filter_filter, List.filter_filter]
    exact List.filter_congr (fun r hr => Bool.and_comm _ _)

/-- Witness for C4 at a concrete collection and parameters. -/
theorem c4_conjunctive_order_independence_witness :
    searchEval (fun _ _ => true)
        [⟨"a", "c1", ⟨0, 0, 1, 1⟩, ⟨2022, 1, 1, 0, 0, 0, 0⟩⟩,
         ⟨"b", "c2", ⟨0, 0, 1, 1⟩, ⟨2022, 1, 1, 0, 0, 0, 0⟩⟩]
        ⟨none, none, some ["a", "b"], some ["c2"], none, none, none⟩ =
      .ok [⟨"b", "c2", ⟨0, 0, 1, 1⟩, ⟨2022, 1, 1, 0, 0, 0, 0⟩⟩] ∧
    [⟨"b", "c2", ⟨0, 0, 1, 1⟩, ⟨2022, 1, 1, 0, 0, 0, 0⟩⟩] =
      List.filter
        (passPred (fun _ _ => true)
          ⟨none, none, some ["a", "b"], some ["c2"], none, none, none⟩)
        [⟨"a", "c1", ⟨0, 0, 1, 1⟩, ⟨2022, 1, 1, 0, 0, 0, 0⟩⟩,
         ⟨"b", "c2", ⟨0, 0, 1, 1⟩, ⟨2022, 1, 1, 0, 0, 0, 0⟩⟩] := by
  constructor
  · rfl
  · exact c4_conjunctive_order_independence.2.2 (fun _ _ => true)
      [⟨"a", "c1", ⟨0, 0, 1, 1⟩, ⟨2022, 1, 1, 0, 0, 0, 0⟩⟩,
       ⟨"b", "c2", ⟨0, 0, 1, 1⟩, ⟨2022, 1, 1, 0, 0, 0, 0⟩⟩]
      ⟨none, none, some ["a", "b"], some ["c2"], none, none, none⟩
      [⟨"b", "c2", ⟨0, 0, 1, 1⟩, ⟨2022, 1, 1, 0, 0, 0, 0⟩⟩] (by rfl)

/-- Helper: reading `result` on a query object whose cache is filled
returns the cached match set and leaves the state unchanged. -/
theorem resultAccess_cached (φ : FilterVal → Rec → Bool) (df : List Rec)
    (p : Params) (r : List Rec) (c : Nat) :
    resultAccess φ ⟨df, p, some r, c⟩ = (.ok r, ⟨df, p, some r, c⟩) := rfl

/-- Helper: repeated reads on a cached query object all return the cached
match set and never touch the counter. -/
theorem accessTimes_cached (φ : FilterVal → Rec → Bool) (n : Nat)
    (df : List Rec) (p : Params) (r : List Rec) (c : Nat) :
    accessTimes φ n ⟨df, p, some r, c⟩ =
      (List.replicate n (.ok r), ⟨df, p, some r, c⟩) := by
  induction n with
  | zero => rfl
  | succ n ih => simp [accessTimes, resultAccess_cached, ih, List.replicate_succ]

/-- C5. On a fresh query object whose evaluation succeeds, any number of
`result` reads all return the same match set while the evaluation pass runs
exactly once (the counter ends at 1, the cache holds the match set); and
`matched()` / `items()` are that same read composed with `len` /
item reconstruction. -/
theorem c5_memoized_single_evaluation (φ : FilterVal → Rec → Bool)
    (df : List Rec) (p : Params) (r : List Rec) (n : Nat)
    (h : searchEval φ df p = .ok r) :
    accessTimes φ (n + 1) (freshQ df p) =
      (List.replicate (n + 1) (.ok r), ⟨df, p, some r, 1⟩) ∧
    matchedAccess φ (freshQ df p) = (.ok r.length, ⟨df, p, some r, 1⟩) ∧
    itemsAccess φ (freshQ df p) = (.ok r, ⟨df, p, some r, 1⟩) := by
  have hfirst : resultAccess φ (freshQ df p) = (.ok r, ⟨df, p, some r, 1⟩) := by
    simp [resultAccess, freshQ, h]
  refine ⟨?_, ?_, ?_⟩
  · simp [accessTimes, hfirst, accessTimes_cached, List.replicate_succ]
  · simp [matchedAccess, hfirst]
  · simp [itemsAccess, hfirst]

/-- Witness for C5 at a concrete query object (three reads). -/
theorem c5_memoized_single_evaluation_witness :
    accessTimes (fun _ _ => true) 3
        (freshQ [⟨"a", "c1", ⟨0, 0, 1, 1⟩, ⟨2022, 1, 1, 0, 0, 0, 0⟩⟩]
          ⟨none, none, some ["a"], none, none, none, none⟩) =
      (List.replicate 3
        (.ok [⟨"a", "c1", ⟨0, 0, 1, 1⟩, ⟨2022, 1, 1, 0, 0, 0, 0⟩⟩]),
       ⟨[⟨"a", "c1", ⟨0, 0, 1, 1⟩, ⟨2022, 1, 1, 0, 0, 0, 0⟩⟩],
        ⟨none, none, some ["a"], none, none, none, none⟩,
        some [⟨"a", "c1", ⟨0, 0, 1, 1⟩, ⟨2022, 1, 1, 0, 0, 0, 0⟩⟩], 1⟩) :=
  (c5_memoized_single_evaluation (fun _ _ => true)
    [⟨"a", "c1", ⟨0, 0, 1, 1⟩, ⟨2022, 1, 1, 0, 0, 0, 0⟩⟩]
    ⟨none, none, some ["a"], none, none, none, none⟩
    [⟨"a", "c1", ⟨0, 0, 1, 1⟩, ⟨2022, 1, 1, 0, 0, 0, 0⟩⟩] 2 (by rfl)).1

/-- C9. Computing the match set never mutates the query object's stored
record collection or its parameters: the state after a `result` read keeps
the same `df` and the same canonical parameter map, whatever the cache did.
-/
theorem c9_evaluation_preserves_df (φ : FilterVal → Rec → Bool)
    (s : QState) :
    (resultAccess φ s).2.df = s.df ∧ (resultAccess φ s).2.params = s.params := by
  unfold resultAccess
  rcases s.cache with _ | r
  · rcases searchEval φ s.df s.params with e | r <;> simp
  · simp

/-- C10. The `parameters` property returns a fresh copy of the canonical
parameter map: the returned dict lives at a new address with the same
contents, and mutating it (writing any new contents to that address) leaves
the stored `_parameters` — and hence the match set any evaluation computes
from it — unchanged. -/
theorem c10_parameters_returns_copy (h : DictHeap) (addr : Nat) (m : Params)
    (hm : h.readAt addr = some m) :
    (parametersProperty h addr).2 ≠ addr ∧
    (parametersProperty h addr).1.readAt (parametersProperty h addr).2 =
      some m ∧
    (∀ v : Params,
      ((parametersProperty h addr).1.writeAt
          (parametersProperty h addr).2 v).readAt addr = some m) ∧
    (∀ (φ : FilterVal → Rec → Bool) (df : List Rec) (v : Params),
      resultViaHeap φ df
          ((parametersProperty h addr).1.writeAt
            (parametersProperty h addr).2 v) addr =
        resultViaHeap φ df h addr) := by
  have hlt : addr < h.cells.length := by
    by_contra hge
    push_neg at hge
    rw [DictHeap.readAt, List.getElem?_eq_none hge] at hm
    exact Option.noConfusion hm
  have hpp : parametersProperty h addr = (⟨h.cells ++ [m]⟩, h.cells.length) := by
    unfold parametersProperty
    rw [hm]
    rfl
  rw [hpp]
  have hread : ∀ v : Params,
      ((⟨h.cells ++ [m]⟩ : DictHeap).writeAt h.cells.length v).readAt addr =
        some m := by
    intro v
    rw [DictHeap.writeAt, DictHeap.readAt]
    simp only [List.getElem?_set_ne (ne_of_gt hlt)]
    rw [List.getElem?_append]
    rw [if_pos hlt]
    exact hm
  refine ⟨ne_of_gt hlt, ?_, hread, ?_⟩
  · rw [DictHeap.readAt]
    exact List.getElem?_concat_length h.cells m
  · intro φ df v
    unfold resultViaHeap
    rw [hread v, hm]

/-- Witness for C10 at a concrete one-cell heap. -/
theorem c10_parameters_returns_copy_witness :
    (parametersProperty
        ⟨[⟨none, none, some ["a"], none, none, none, none⟩]⟩ 0).2 ≠ 0 ∧
    (parametersProperty
        ⟨[⟨none, none, some ["a"], none, none, none, none⟩]⟩ 0).1.readAt
        (parametersProperty
          ⟨[⟨none, none, some ["a"], none, none, none, none⟩]⟩ 0).2 =
      some ⟨none, none, some ["a"], none, none, none, none⟩ :=
  ⟨(c10_parameters_returns_copy
      ⟨[⟨none, none, some ["a"], none, none, none, none⟩]⟩ 0
      ⟨none, none, some ["a"], none, none, none, none⟩ (by rfl)).1,
   (c10_parameters_returns_copy
      ⟨[⟨none, none, some ["a"], none, none, none, none⟩]⟩ 0
      ⟨none, none, some ["a"], none, none, none, none⟩ (by rfl)).2.1⟩
